import Mathlib

/-!
Verification development for the three-stage image pipeline
(Gatekeeper `Human face api/main.py`, Age Screener `Age api/main.py`,
Region Classifier `backend-api/hf_model/main.py`).

The HTTP/CV effects are shallowly embedded: the downstream service is a
function from attempt index to the observed outcome of the POST, the
artifact GET is a function from URL to its outcome, and the CV models
(treated as fixed external capabilities by the code) are oracle fields of
each stage's environment.  Every handler returns a run record holding the
response actually produced plus the observable side effects (temp file
written/removed, forwarding called, GETs issued, artifact saved).
-/

namespace Pipeline

/-- Downstream JSON body of a 200 response: the one key the callers ever
inspect (`annotated_image_path`, rewritten by the Age Screener) plus the
remaining fields, carried verbatim as an opaque association list. -/
structure Payload where
  annotated_image_path : Option String := none
  rest : List (String × String) := []
deriving DecidableEq, Repr

/-- Python `s.startswith(px)` on strings, as character-list matching (the
executable counterpart of `String.startsWith`). -/
def startswith (s px : String) : Bool :=
  px.data.isPrefixOf s.data

/-- Outcome observed by one POST attempt of a forwarding call:
an HTTP response with a status code and (for 200) a parsed JSON body,
an `httpx.TimeoutException`, an `httpx.RequestError`, or any other
exception raised during the attempt. -/
inductive Outcome where
  | resp (code : Nat) (body : Payload)
  | timeout
  | reqError (msg : String)
  | exc (msg : String)
deriving DecidableEq, Repr

/-- The timeout configuration of one attempt, in seconds:
`httpx.Timeout(timeout_duration, connect=30.0, read=timeout_duration)`
with `timeout_duration = 60.0 + attempt * 30.0`. -/
structure AttemptRec where
  attemptIndex : Nat
  totalTimeout : Nat
  connectTimeout : Nat
deriving DecidableEq, Repr

/-- The dict returned by `forward_to_age_api` / `forward_to_next_api`:
`{"status": ..., "data": ...}` on success, `{"status": ..., "error": ...}`
on failure. -/
structure ForwardResult where
  status : String
  data : Option Payload
  error : Option String
deriving DecidableEq, Repr

/-- Full observable trace of one forwarding call: the attempts made (with
their timeout configuration), the `asyncio.sleep` durations between
attempts, the returned dict, the artifact GET URLs issued, and the local
path of a persisted artifact copy when one was saved. -/
structure NextRun where
  attempts : List AttemptRec
  sleeps : List Nat
  result : ForwardResult
  gets : List String
  saved : Option String
deriving DecidableEq, Repr

/-- The two forwarding call sites duplicate one loop; this record holds
exactly what differs between `forward_to_age_api` (Gatekeeper) and
`forward_to_next_api` (Age Screener): the handling of a 200 body and the
failure message strings. -/
structure EngineCfg where
  onSuccess : Payload → Payload × List String × Option String
  msg500 : Nat → String
  msgTimeout : Nat → String
  msgReqError : String → String
  msgExc : String → String
  msgStatus : Nat → String
  msgExhausted : String

/-- Run record of an attempt that returned without retrying. -/
def oneShot (rec : AttemptRec) (res : ForwardResult) : NextRun :=
  { attempts := [rec], sleeps := [], result := res, gets := [], saved := none }

/-- Prepend a retried attempt and its backoff sleep to the rest of the run. -/
def retryStep (rec : AttemptRec) (slp : Nat) (r : NextRun) : NextRun :=
  { attempts := rec :: r.attempts, sleeps := slp :: r.sleeps,
    result := r.result, gets := r.gets, saved := r.saved }

/-- The `for attempt in range(3)` loop shared verbatim by both call sites.
`a` is the current attempt index, `f` the number of loop iterations left;
`b a` is the outcome observed by attempt `a`.  The `f = 0` case is the
dead `return` after the loop (unreachable from the top-level entry).
Timeout per attempt is `60.0 + attempt * 30.0` seconds, connect `30.0`.
Retry happens on HTTP 500 (sleep `15 * (attempt + 1)`), on timeout
(sleep `20`), and on a request error or other exception (sleep `10`),
each only while `attempt < 2`; all other cases return at once. -/
def forwardGo (cfg : EngineCfg) (b : Nat → Outcome) : Nat → Nat → NextRun
  | _, 0 => { attempts := [], sleeps := [],
              result := { status := "forward_failed", data := none,
                          error := some cfg.msgExhausted },
              gets := [], saved := none }
  | a, f + 1 =>
    let arec : AttemptRec :=
      { attemptIndex := a, totalTimeout := 60 + a * 30, connectTimeout := 30 }
    match b a with
    | .resp code body =>
      if code = 200 then
        { attempts := [arec], sleeps := [],
          result := { status := "success", data := some (cfg.onSuccess body).1,
                      error := none },
          gets := (cfg.onSuccess body).2.1, saved := (cfg.onSuccess body).2.2 }
      else if code = 500 then
        if a < 2 then retryStep arec (15 * (a + 1)) (forwardGo cfg b (a + 1) f)
        else
          oneShot arec
            { status := "forward_failed", data := none,
              error := some (cfg.msg500 (a + 1)) }
      else
        oneShot arec
          { status := "forward_failed", data := none,
            error := some (cfg.msgStatus code) }
    | .timeout =>
      if a < 2 then retryStep arec 20 (forwardGo cfg b (a + 1) f)
      else
        oneShot arec
          { status := "forward_failed", data := none,
            error := some (cfg.msgTimeout (a + 1)) }
    | .reqError m =>
      if a < 2 then retryStep arec 10 (forwardGo cfg b (a + 1) f)
      else
        oneShot arec
          { status := "forward_failed", data := none,
            error := some (cfg.msgReqError m) }
    | .exc m =>
      if a < 2 then retryStep arec 10 (forwardGo cfg b (a + 1) f)
      else
        oneShot arec
          { status := "forward_failed", data := none,
            error := some (cfg.msgExc m) }

/-! ## Gatekeeper forwarding (`forward_to_age_api`) -/

/-- Configuration of the Gatekeeper call site: the 200 body is returned
verbatim (no artifact fetch, no local save), and the message strings are
those of `Human face api/main.py`. -/
def ageCfg : EngineCfg :=
  { onSuccess := fun p => (p, [], none)
    msg500 := fun n => "Age API returned 500 error after " ++ toString n ++ " attempts"
    msgTimeout := fun n => "Age API timed out after " ++ toString n ++ " attempts"
    msgReqError := fun m => "Network error: " ++ m
    msgExc := fun m => "Unexpected error: " ++ m
    msgStatus := fun c => "Age API returned status " ++ toString c
    msgExhausted := "All attempts failed" }

/-- `forward_to_age_api` of `Human face api/main.py`, as a function of the
downstream behaviour `b` (outcome of each POST attempt). -/
def forward_to_age_api (b : Nat → Outcome) : NextRun :=
  forwardGo ageCfg b 0 3

/-! ## Age Screener forwarding (`forward_to_next_api`) and relocation -/

/-- Outcome of the artifact `client.get(image_url, timeout=30.0)`:
an HTTP response carrying a status code and the body bytes, or an
exception raised during the download. -/
inductive GetOutcome where
  | resp (code : Nat) (content : List Nat)
  | exc (msg : String)
deriving DecidableEq, Repr

/-- Environment of `save_autism_image_locally`: the fresh uuid file name
it generates, whether the local write raises, and whether the saved file
verifies as existing with positive size. -/
structure SaveEnv where
  localFilename : String
  writeSucceeds : Bool
  sizeOk : Bool
deriving DecidableEq, Repr

/-- Environment of one `/process` request's forwarding: the POST attempt
outcomes, the artifact GET behaviour, and the local-save environment. -/
structure NextEnv where
  behavior : Nat → Outcome
  getOutcome : String → GetOutcome
  saveEnv : SaveEnv

/-- `save_autism_image_locally` of `Age api/main.py`: saves only non-empty
byte data, returns `None` when the write raises or the saved file fails
the exists-and-positive-size verification, otherwise the locally-servable
path `/annotated/<fresh name>`. -/
def save_autism_image_locally (senv : SaveEnv) (image_data : List Nat) : Option String :=
  if 0 < image_data.length then
    if senv.writeSucceeds then
      if senv.sizeOk then some ("/annotated/" ++ senv.localFilename)
      else none
    else none
  else none

/-- Base URL of the downstream Region Classifier service. -/
def autism_image_base_url : String :=
  "https://autism-detection2-667306373563.europe-west1.run.app"

/-- URL from which the downstream artifact is downloaded, built from the
`annotated_image_path` of the downstream body. -/
def downloadUrl (original_path : String) : String :=
  if original_path.startsWith "/" then autism_image_base_url ++ original_path
  else autism_image_base_url ++ "/" ++ original_path

/-- The net effect of the artifact download-and-save block: the local
path when the GET returned 200 and the local save succeeded, `none` when
the GET returned non-200, the GET raised, or the save returned `None`. -/
def artifactFetchResult (env : NextEnv) (original_path : String) : Option String :=
  match env.getOutcome (downloadUrl original_path) with
  | .resp code content =>
    if code = 200 then save_autism_image_locally env.saveEnv content else none
  | .exc _ => none

/-- The relocation step run inside the 200 branch of
`forward_to_next_api`: when the body holds `annotated_image_path`, GET the
artifact and, if the download and save both succeed, rewrite the key to
the local path; on any failure the body is left unchanged.  Returns the
(possibly rewritten) body, the GET URLs issued, and the saved local path. -/
def relocate (env : NextEnv) (body : Payload) : Payload × List String × Option String :=
  match body.annotated_image_path with
  | none => (body, [], none)
  | some original_path =>
    match artifactFetchResult env original_path with
    | some local_path =>
      ({ body with annotated_image_path := some local_path },
       [downloadUrl original_path], some local_path)
    | none => (body, [downloadUrl original_path], none)

/-- Configuration of the Age Screener call site: the 200 body goes through
`relocate`, and the message strings are those of `Age api/main.py` (note
`httpx.RequestError` is caught there by the generic `except Exception`). -/
def nextCfg (env : NextEnv) : EngineCfg :=
  { onSuccess := relocate env
    msg500 := fun n => "Autism API 500 error after " ++ toString n ++ " attempts"
    msgTimeout := fun n => "Autism API timed out after " ++ toString n ++ " attempts"
    msgReqError := fun m => "Unexpected error: " ++ m
    msgExc := fun m => "Unexpected error: " ++ m
    msgStatus := fun c => "Autism API returned status " ++ toString c
    msgExhausted := "All autism API attempts failed" }

/-- `forward_to_next_api` of `Age api/main.py`. -/
def forward_to_next_api (env : NextEnv) : NextRun :=
  forwardGo (nextCfg env) env.behavior 0 3

/-! ## Gatekeeper request handler (`filter_main`) -/

/-- JSON body and status of a Gatekeeper `/filter_face/` response: `detail`
is the body of a raised `HTTPException`; the remaining fields are the keys
of the `JSONResponse` bodies (absent keys are `none`). -/
structure GKResponse where
  statusCode : Nat
  valid : Option Bool := none
  status : Option String := none
  message : Option String := none
  reason : Option String := none
  detail : Option String := none
  faceCount : Option Nat := none
  annotatedImageUrl : Option String := none
  ageAnalysisData : Option Payload := none
  error : Option String := none
deriving DecidableEq, Repr

/-- Observable run of one Gatekeeper request: the response plus whether
the temp input file was written, whether it was removed by the `finally`
block, and whether the forwarding call was made. -/
structure GKRun where
  response : GKResponse
  tempWritten : Bool
  tempRemoved : Bool
  forwardCalled : Bool
deriving DecidableEq, Repr

/-- Environment of one Gatekeeper request: upload metadata, the results
of the fixed CV capabilities on this image (animal detector, human-face
check, face annotator), the fresh annotated file name, and the downstream
behaviour of the Age API. -/
structure GKEnv where
  contentType : String
  contentLen : Nat
  readable : Bool
  hasAnimal : Bool
  hasHumanFace : Bool
  faceCount : Nat
  annotatedFilename : String
  behavior : Nat → Outcome

/-- Response of a raised `HTTPException(status_code, detail)`. -/
def httpDetail (code : Nat) (msg : String) : GKResponse :=
  { statusCode := code, detail := some msg }

/-- `filter_main` of `Human face api/main.py` (`POST /filter_face/`):
content-type gate, empty-upload gate, readability gate, animal filter,
human-face filter, then forwarding; the temp input file is written only
after the first two gates and removed by `finally` on every later path. -/
def filter_main (env : GKEnv) : GKRun :=
  if startswith env.contentType "image/" = false then
    { response := httpDetail 400 "File must be an image",
      tempWritten := false, tempRemoved := false, forwardCalled := false }
  else if env.contentLen = 0 then
    { response := httpDetail 400 "Uploaded file is empty.",
      tempWritten := false, tempRemoved := false, forwardCalled := false }
  else if env.readable = false then
    { response := httpDetail 400 "Uploaded file could not be read as a valid image.",
      tempWritten := true, tempRemoved := true, forwardCalled := false }
  else if env.hasAnimal then
    { response :=
        { statusCode := 400, valid := some false, status := some "animal_detected",
          reason := some "Animal face detected. Only real human images are allowed." },
      tempWritten := true, tempRemoved := true, forwardCalled := false }
  else if env.hasHumanFace = false then
    { response :=
        { statusCode := 400, valid := some false, status := some "no_human_face",
          reason := some "No valid human face detected." },
      tempWritten := true, tempRemoved := true, forwardCalled := false }
  else
    let fr := forward_to_age_api env.behavior
    if fr.result.status = "success" then
      { response :=
          { statusCode := 200, valid := some true,
            status := some "face_validated_and_processed",
            message := some "Human face validated and processed by age API.",
            faceCount := some env.faceCount,
            annotatedImageUrl := some ("/annotated_face/" ++ env.annotatedFilename),
            ageAnalysisData := fr.result.data },
        tempWritten := true, tempRemoved := true, forwardCalled := true }
    else
      { response :=
          { statusCode := 503, valid := some false,
            status := some "age_api_unavailable",
            message := some "Face validation passed but age analysis service is currently unavailable.",
            error := fr.result.error,
            faceCount := some env.faceCount,
            annotatedImageUrl := some ("/annotated_face/" ++ env.annotatedFilename) },
        tempWritten := true, tempRemoved := true, forwardCalled := true }

/-! ## Age Screener request handler (`process_image_gateway`) -/

/-- One face detection of the age model: the age-bracket label and the
bounding box, as appended by `highlightFace_and_annotate`. -/
structure Ann where
  age : String
  box : List Int
deriving DecidableEq, Repr

/-- The fixed list of kid brackets of `is_kid`. -/
def kid_ages : List String :=
  ["(0-2)", "(4-6)", "(8-12)", "(15-20)"]

/-- `is_kid` of `Age api/main.py`. -/
def is_kid (age : String) : Bool :=
  kid_ages.contains age

/-- The dict returned by `process_image_for_age_check`. -/
structure AgeCheckResult where
  has_faces : Bool
  contains_kids : Bool
  anns : List Ann
  kids_count : Nat
  adults_count : Nat
  annotated_image_url : String
deriving DecidableEq, Repr

/-- Environment of one Age Screener request: upload metadata, image
readability, the detections of the fixed face+age capability, the fresh
annotated file name, and the forwarding environment. -/
structure AgeEnv where
  contentType : String
  readable : Bool
  anns : List Ann
  annotatedFilename : String
  nextEnv : NextEnv

/-- `process_image_for_age_check` of `Age api/main.py`: raises
`HTTPException(400, ...)` on an unreadable file (embedded as `Except.error`
carrying the status code and detail), otherwise summarizes the detections;
`contains_kids` iff the count of kid-bracket detections is positive. -/
def process_image_for_age_check (env : AgeEnv) : Except (Nat × String) AgeCheckResult :=
  if env.readable = false then .error (400, "Could not read image file.")
  else
    let url := "/annotated_age/" ++ env.annotatedFilename
    if env.anns.isEmpty then
      .ok { has_faces := false, contains_kids := false, anns := [],
            kids_count := 0, adults_count := 0, annotated_image_url := url }
    else
      let kids_count := env.anns.countP (fun a => is_kid a.age)
      .ok { has_faces := true, contains_kids := decide (0 < kids_count),
            anns := env.anns, kids_count := kids_count,
            adults_count := env.anns.length - kids_count,
            annotated_image_url := url }

/-- JSON body and status of an Age Screener `/process` response;
`ageStatus` is the nested `age_analysis_data.status` tag and `autismData`
the nested `autism_prediction_data` payload. -/
structure AgeResponse where
  statusCode : Nat
  valid : Option Bool := none
  status : Option String := none
  message : Option String := none
  detail : Option String := none
  faceCount : Option Nat := none
  annotatedImageUrl : Option String := none
  ageStatus : Option String := none
  autismData : Option Payload := none
  error : Option String := none
deriving DecidableEq, Repr

/-- Observable run of one Age Screener request. -/
structure AgeRun where
  response : AgeResponse
  tempWritten : Bool
  tempRemoved : Bool
  forwardCalled : Bool
deriving DecidableEq, Repr

/-- Response of a raised `HTTPException(status_code, detail)` at the Age
Screener. -/
def httpDetailAge (code : Nat) (msg : String) : AgeResponse :=
  { statusCode := code, detail := some msg }

/-- `process_image_gateway` of `Age api/main.py` (`POST /process`):
content-type gate before the temp write, then the age check (whose 400
`HTTPException` is caught by the blanket `except` and re-raised as a 500
whose detail embeds `str(e)`), then the three business cases; the temp
input file is removed by `finally` on every path after the write. -/
def process_image_gateway (env : AgeEnv) : AgeRun :=
  if startswith env.contentType "image/" = false then
    { response := httpDetailAge 400 "File must be an image",
      tempWritten := false, tempRemoved := false, forwardCalled := false }
  else
    match process_image_for_age_check env with
    | .error e =>
      { response :=
          httpDetailAge 500 ("Processing error: " ++ toString e.1 ++ ": " ++ e.2),
        tempWritten := true, tempRemoved := true, forwardCalled := false }
    | .ok acr =>
      if acr.has_faces = false then
        { response :=
            { statusCode := 200, valid := some true,
              status := some "face_validated_and_processed",
              message := some "Human face validated and processed by age API.",
              faceCount := some 0,
              annotatedImageUrl := some acr.annotated_image_url,
              ageStatus := some "no_faces_detected" },
          tempWritten := true, tempRemoved := true, forwardCalled := false }
      else if acr.contains_kids then
        let fr := forward_to_next_api env.nextEnv
        if fr.result.status = "success" then
          { response :=
              { statusCode := 200, valid := some true,
                status := some "face_validated_and_processed",
                message := some "Human face validated and processed by age API.",
                faceCount := some 1,
                annotatedImageUrl := some acr.annotated_image_url,
                ageStatus := some "child_autism_screened",
                autismData := fr.result.data },
            tempWritten := true, tempRemoved := true, forwardCalled := true }
        else
          { response :=
              { statusCode := 500, valid := some false,
                status := some "autism_api_failed",
                message := some "Autism detection service is currently unavailable.",
                error := fr.result.error },
            tempWritten := true, tempRemoved := true, forwardCalled := true }
      else
        { response :=
            { statusCode := 200, valid := some true,
              status := some "face_validated_and_processed",
              message := some "Human face validated and processed by age API.",
              faceCount := some 1,
              annotatedImageUrl := some acr.annotated_image_url,
              ageStatus := some "adult_invalid" },
          tempWritten := true, tempRemoved := true, forwardCalled := false }

/-! ## Region Classifier (`hf_model/main.py`: `run_inference`, `predict`) -/

/-- One entry of the `results` list of `run_inference`: either a
per-region dict `{region, label, confidence}` or the per-face dict
`{final_decision}` appended after the region loop. -/
inductive ResultEntry where
  | region (regionName : String) (label : String) (confidence : Rat)
  | final (decision : String)
deriving DecidableEq, Repr

/-- The exceptions `run_inference` can raise: the `ValueError` for an
unreadable file, the `HTTPException(400)` for zero faces, and the
`KeyError` from reading a missing dict key in a comprehension. -/
inductive RCError where
  | cannotRead
  | noFace
  | keyError (key : String)
deriving DecidableEq, Repr

/-- The fixed region table of `run_inference` (name, landmark indices). -/
def regions : List (String × List Nat) :=
  [("eyes", [17, 19, 24, 26, 41, 47]),
   ("nose", [31, 33, 35, 39, 42]),
   ("lips", [48, 50, 52, 54, 57])]

/-- `[r['label'] for r in results]`: reading the `label` key of every
accumulated entry, raising `KeyError` at a `final_decision` entry. -/
def labelsOf : List ResultEntry → Except RCError (List String)
  | [] => .ok []
  | .region _ l _ :: restEntries =>
    match labelsOf restEntries with
    | .ok ls => .ok (l :: ls)
    | .error e => .error e
  | .final _ :: _ => .error (.keyError "label")

/-- `[torch.tensor(r['confidence']/100) for r in results]`. -/
def confsOf : List ResultEntry → Except RCError (List Rat)
  | [] => .ok []
  | .region _ _ c :: restEntries =>
    match confsOf restEntries with
    | .ok cs => .ok (c / 100 :: cs)
    | .error e => .error e
  | .final _ :: _ => .error (.keyError "confidence")

/-- Environment of one Region Classifier request: upload metadata (the
handler never reads the content type), image readability, the number of
faces found by the dlib detector, the opaque per-face per-region
classifier capability (label and rounded percentage), the opaque fusion
capability `process_labels_confidence`, and the fresh output file name. -/
structure RCEnv where
  contentType : String
  readable : Bool
  numFaces : Nat
  pred : Nat → String → String × Rat
  fuse : List String → List Rat → String
  outFile : String

/-- The body of `run_inference`'s `for face in faces` loop for one face:
append the three per-region entries, then build the fusion inputs by
reading `label` and `confidence` of every entry accumulated so far
(raising `KeyError` once a previous face's `final_decision` entry is
present), and append the fused `final_decision` entry. -/
def faceStep (env : RCEnv) (results : List ResultEntry) (i : Nat) :
    Except RCError (List ResultEntry) :=
  let withRegions := results ++
    regions.map (fun r => ResultEntry.region r.1 (env.pred i r.1).1 (env.pred i r.1).2)
  match labelsOf withRegions with
  | .error e => .error e
  | .ok labels =>
    match confsOf withRegions with
    | .error e => .error e
    | .ok confs =>
      .ok (withRegions ++ [ResultEntry.final (env.fuse labels confs)])

/-- The face loop of `run_inference`, folding `faceStep` over the face
indices and propagating the first raised exception. -/
def faceLoop (env : RCEnv) : List Nat → List ResultEntry → Except RCError (List ResultEntry)
  | [], results => .ok results
  | i :: restFaces, results =>
    match faceStep env results i with
    | .error e => .error e
    | .ok results2 => faceLoop env restFaces results2

/-- `run_inference` of `hf_model/main.py`: unreadable file raises
`ValueError`, zero faces raises `HTTPException(400)`, otherwise the face
loop runs over all detected faces. -/
def run_inference (env : RCEnv) : Except RCError (List ResultEntry) :=
  if env.readable = false then .error .cannotRead
  else if env.numFaces = 0 then .error .noFace
  else faceLoop env (List.range env.numFaces) []

/-- `str(e)` of each exception as re-surfaced by `predict`'s blanket
`except` (`starlette.HTTPException` prints as `"{status_code}: {detail}"`,
`KeyError` prints the quoted key). -/
def rcErrStr : RCError → String
  | .cannotRead => "Cannot read image"
  | .noFace => "400: No face detected in the image"
  | .keyError k => "'" ++ k ++ "'"

/-- JSON body and status of a Region Classifier `/predict/` response. -/
structure RCResponse where
  statusCode : Nat
  status : Option String := none
  results : Option (List ResultEntry) := none
  annotated_image_path : Option String := none
  detail : Option String := none
deriving DecidableEq, Repr

/-- Observable run of one Region Classifier request. -/
structure RCRun where
  response : RCResponse
  tempWritten : Bool
  tempRemoved : Bool
deriving DecidableEq, Repr

/-- `predict` of `hf_model/main.py` (`POST /predict/`): the upload is
written to the temp file unconditionally (no content-type check); any
exception from `run_inference` is caught, the temp file removed, and a
500 with `str(e)` raised; on the success path the only `os.remove` of the
temp file is the mis-indented statement inside the `except` block after
`raise` — dead code — so the file is not removed. -/
def predict (env : RCEnv) : RCRun :=
  match run_inference env with
  | .error e =>
    { response := { statusCode := 500, detail := some (rcErrStr e) },
      tempWritten := true, tempRemoved := true }
  | .ok results =>
    { response :=
        { statusCode := 200, status := some "success", results := some results,
          annotated_image_path := some ("/annotated/" ++ env.outFile) },
      tempWritten := true, tempRemoved := false }

/-! ## Trace vocabulary for the forwarding engine -/

/-- Timeout configuration used by attempt `a` (0-based). -/
def attemptRecAt (a : Nat) : AttemptRec :=
  { attemptIndex := a, totalTimeout := 60 + a * 30, connectTimeout := 30 }

/-- The full three-attempt timeout schedule: 60s, 90s, 120s total, 30s
connect each. -/
def canonicalAttempts : List AttemptRec :=
  [attemptRecAt 0, attemptRecAt 1, attemptRecAt 2]

/-- Outcome classes after which the loop retries (when attempts remain):
HTTP 500, timeout, request error, other exception. -/
def retries : Outcome → Bool
  | .resp code _ => code == 500
  | .timeout => true
  | .reqError _ => true
  | .exc _ => true

/-- Backoff slept after a retried attempt of 0-based index `a`:
20s after a timeout, `15 * (a + 1)`s after an HTTP 500, 10s after a
request error or other exception. -/
def sleepFor : Outcome → Nat → Nat
  | .timeout, _ => 20
  | .resp _ _, a => 15 * (a + 1)
  | .reqError _, _ => 10
  | .exc _, _ => 10

/-! ## Concrete request environments used to instantiate the theorems -/

/-- Downstream that times out once, then answers 403. -/
def c2Behavior : Nat → Outcome :=
  fun n => if n = 0 then .timeout else .resp 403 {}

/-- Age Screener forwarding environment whose downstream raises once,
then answers 404. -/
def c2NextEnv : NextEnv :=
  { behavior := fun n => if n = 0 then .exc "connection reset" else .resp 404 {}
    getOutcome := fun _ => .exc "unused"
    saveEnv := { localFilename := "c2.jpg", writeSucceeds := true, sizeOk := true } }

/-- Downstream that always answers HTTP 500. -/
def c3Behavior : Nat → Outcome := fun _ => .resp 500 {}

/-- Downstream that always raises a request error. -/
def c3ReqErrBehavior : Nat → Outcome := fun _ => .reqError "peer reset"

/-- Age Screener forwarding environment whose downstream times out, raises,
then answers 200. -/
def c3NextEnv : NextEnv :=
  { behavior := fun n =>
      if n = 0 then .timeout else if n = 1 then .exc "boom" else .resp 200 {}
    getOutcome := fun _ => .exc "unused"
    saveEnv := { localFilename := "c3.jpg", writeSucceeds := true, sizeOk := true } }

/-- An Age API success body whose `annotated_image_url` references an
artifact hosted on the Age service. -/
def c4Payload : Payload :=
  { annotated_image_path := none,
    rest := [("annotated_image_url", "/annotated_age/age_annotated_c4.jpg")] }

/-- Age API that answers 200 with `c4Payload` at once. -/
def c4Behavior : Nat → Outcome := fun _ => .resp 200 c4Payload

/-- A Gatekeeper request that passes every gate and forwards to
`c4Behavior`. -/
def c4GKEnv : GKEnv :=
  { contentType := "image/jpeg", contentLen := 1024, readable := true,
    hasAnimal := false, hasHumanFace := true, faceCount := 1,
    annotatedFilename := "face_annotated_c4.jpg", behavior := c4Behavior }

/-- Age Screener forwarding environment in which the downstream succeeds,
the artifact GET returns 200 with non-empty bytes, and the local save
succeeds. -/
def c4NextEnv : NextEnv :=
  { behavior := fun _ =>
      .resp 200 { annotated_image_path := some "/annotated/remote_c4.jpg" }
    getOutcome := fun _ => .resp 200 [137, 80, 78, 71]
    saveEnv := { localFilename := "autism_annotated_c4.jpg",
                 writeSucceeds := true, sizeOk := true } }

/-- Age API answering 200 with an opaque body, for the Gatekeeper half of
the amended C4. -/
def c4AgeBehavior : Nat → Outcome :=
  fun _ => .resp 200 { rest := [("status", "ok")] }

/-- Downstream success body referencing a Region Classifier artifact. -/
def c5Payload : Payload :=
  { annotated_image_path := some "/annotated/remote_c5.jpg" }

/-- Forwarding environment in which the downstream succeeds but the
artifact GET returns 404, so relocation fails. -/
def c5NextEnv : NextEnv :=
  { behavior := fun _ => .resp 200 c5Payload
    getOutcome := fun _ => .resp 404 []
    saveEnv := { localFilename := "autism_annotated_c5.jpg",
                 writeSucceeds := true, sizeOk := true } }

/-- Age Screener request with one kid-bracket face, forwarding into
`c5NextEnv`. -/
def c5AgeEnv : AgeEnv :=
  { contentType := "image/jpeg", readable := true,
    anns := [{ age := "(4-6)", box := [10, 10, 50, 50] }],
    annotatedFilename := "age_annotated_c5.jpg", nextEnv := c5NextEnv }

/-- Region Classifier request with a readable image and exactly one
detected face (the success path of `predict`). -/
def c6Env : RCEnv :=
  { contentType := "image/jpeg", readable := true, numFaces := 1,
    pred := fun _ _ => ("non-autistic", 90), fuse := fun _ _ => "non-autistic",
    outFile := "annotated_c6.jpg" }

/-- A non-image upload to the Region Classifier (its handler never reads
the content type, and the body is not a readable image). -/
def c7RCEnv : RCEnv :=
  { contentType := "text/plain", readable := false, numFaces := 0,
    pred := fun _ _ => ("", 0), fuse := fun _ _ => "", outFile := "c7.jpg" }

/-- A non-image upload to the Gatekeeper. -/
def c7GKEnv : GKEnv :=
  { contentType := "text/plain", contentLen := 42, readable := true,
    hasAnimal := false, hasHumanFace := true, faceCount := 1,
    annotatedFilename := "c7.jpg", behavior := fun _ => .timeout }

/-- Idle forwarding environment for the C7 Age Screener instance. -/
def c7NextEnv : NextEnv :=
  { behavior := fun _ => .timeout, getOutcome := fun _ => .exc "unused"
    saveEnv := { localFilename := "c7.jpg", writeSucceeds := true, sizeOk := true } }

/-- A non-image upload to the Age Screener. -/
def c7AgeEnv : AgeEnv :=
  { contentType := "application/json", readable := true, anns := [],
    annotatedFilename := "c7.jpg", nextEnv := c7NextEnv }

/-- Forwarding environment whose downstream succeeds at once. -/
def c8NextEnv : NextEnv :=
  { behavior := fun _ => .resp 200 {}, getOutcome := fun _ => .exc "unused"
    saveEnv := { localFilename := "c8.jpg", writeSucceeds := true, sizeOk := true } }

/-- Age Screener request with zero detected faces. -/
def c8NoFaceEnv : AgeEnv :=
  { contentType := "image/png", readable := true, anns := [],
    annotatedFilename := "c8a.jpg", nextEnv := c8NextEnv }

/-- Age Screener request with one face in the kid bracket `(8-12)`. -/
def c8KidEnv : AgeEnv :=
  { c8NoFaceEnv with anns := [{ age := "(8-12)", box := [0, 0, 5, 5] }] }

/-- Age Screener request with one face in the adult bracket `(38-43)`. -/
def c8AdultEnv : AgeEnv :=
  { c8NoFaceEnv with anns := [{ age := "(38-43)", box := [0, 0, 5, 5] }] }

/-- Region Classifier request with a readable image and zero detected
faces. -/
def c9Env : RCEnv :=
  { contentType := "image/jpeg", readable := true, numFaces := 0,
    pred := fun _ _ => ("", 0), fuse := fun _ _ => "", outFile := "c9.jpg" }

/-- Region Classifier request with a readable image and two detected
faces. -/
def c10Env : RCEnv :=
  { contentType := "image/jpeg", readable := true, numFaces := 2,
    pred := fun _ _ => ("autistic", 75), fuse := fun _ _ => "autistic",
    outFile := "c10.jpg" }

theorem forwardGo_succ_cases (cfg : EngineCfg) (b : Nat → Outcome) (a f : Nat) :
    ((forwardGo cfg b a (f + 1)).attempts = [attemptRecAt a] ∧
     (forwardGo cfg b a (f + 1)).sleeps = []) ∨
    (retries (b a) = true ∧
     forwardGo cfg b a (f + 1) =
       retryStep (attemptRecAt a) (sleepFor (b a) a) (forwardGo cfg b (a + 1) f)) := by
  rcases hb : b a with ⟨code, body⟩ | _ | m | m <;>
    simp only [forwardGo, hb] <;> split_ifs <;>
    first
    | (left; constructor <;> simp [oneShot, attemptRecAt])
    | (right; constructor
       · simp_all [retries]
       · simp_all [retryStep, sleepFor, attemptRecAt])

theorem forwardGo_retried (cfg : EngineCfg) (b : Nat → Outcome) :
    ∀ f a j, j + 1 < (forwardGo cfg b a f).attempts.length →
      retries (b (a + j)) = true := by
  intro f
  induction f with
  | zero => intro a j hj; simp [forwardGo] at hj
  | succ f ih =>
    intro a j hj
    rcases forwardGo_succ_cases cfg b a f with ⟨h1, _⟩ | ⟨hr, he⟩
    · rw [h1] at hj; simp at hj
    · rw [he] at hj
      simp only [retryStep, List.length_cons] at hj
      rcases j with _ | jj
      · simpa using hr
      · have heq : a + (jj + 1) = a + 1 + jj := by omega
        rw [heq]
        exact ih (a + 1) jj (by omega)

theorem forwardGo_sleeps_spec (cfg : EngineCfg) (b : Nat → Outcome) :
    ∀ f a j, j + 1 < (forwardGo cfg b a f).attempts.length →
      (forwardGo cfg b a f).sleeps.get? j = some (sleepFor (b (a + j)) (a + j)) := by
  intro f
  induction f with
  | zero => intro a j hj; simp [forwardGo] at hj
  | succ f ih =>
    intro a j hj
    rcases forwardGo_succ_cases cfg b a f with ⟨h1, _⟩ | ⟨_, he⟩
    · rw [h1] at hj; simp at hj
    · rw [he] at hj ⊢
      simp only [retryStep, List.length_cons] at hj
      rcases j with _ | jj
      · simp [retryStep]
      · have heq : a + (jj + 1) = a + 1 + jj := by omega
        simp only [retryStep, List.get?_cons_succ]
        rw [heq]
        exact ih (a + 1) jj (by omega)

theorem forwardGo_terminal_other (cfg : EngineCfg) (b : Nat → Outcome) :
    ∀ f a j c p, b (a + j) = .resp c p → c ≠ 200 → c ≠ 500 →
      j < (forwardGo cfg b a f).attempts.length →
      (forwardGo cfg b a f).attempts.length = j + 1 ∧
      (forwardGo cfg b a f).result =
        { status := "forward_failed", data := none,
          error := some (cfg.msgStatus c) } := by
  intro f
  induction f with
  | zero => intro a j c p _ _ _ hj; simp [forwardGo] at hj
  | succ f ih =>
    intro a j c p hbj h200 h500 hj
    rcases j with _ | jj
    · rw [Nat.add_zero] at hbj
      constructor <;> simp [forwardGo, hbj, h200, h500, oneShot]
    · rcases forwardGo_succ_cases cfg b a f with ⟨h1, _⟩ | ⟨_, he⟩
      · rw [h1] at hj; simp at hj
      · rw [he] at hj ⊢
        simp only [retryStep, List.length_cons] at hj ⊢
        have heq : a + (jj + 1) = a + 1 + jj := by omega
        rw [heq] at hbj
        have hrec := ih (a + 1) jj c p hbj h200 h500 (by omega)
        exact ⟨by omega, hrec.2⟩

theorem forwardGo_success (cfg : EngineCfg) (b : Nat → Outcome) (p : Payload)
    (f a : Nat) (hb : b a = .resp 200 p) :
    forwardGo cfg b a (f + 1) =
      { attempts := [attemptRecAt a], sleeps := [],
        result := { status := "success", data := some (cfg.onSuccess p).1,
                    error := none },
        gets := (cfg.onSuccess p).2.1, saved := (cfg.onSuccess p).2.2 } := by
  simp [forwardGo, hb, attemptRecAt]

theorem forwardGo_success3 (cfg : EngineCfg) (b : Nat → Outcome) (p : Payload)
    (hb : b 0 = .resp 200 p) :
    forwardGo cfg b 0 3 =
      { attempts := [attemptRecAt 0], sleeps := [],
        result := { status := "success", data := some (cfg.onSuccess p).1,
                    error := none },
        gets := (cfg.onSuccess p).2.1, saved := (cfg.onSuccess p).2.2 } :=
  forwardGo_success cfg b p 2 0 hb

end Pipeline

namespace Pipeline

theorem forwardGo_attempts_len (cfg : EngineCfg) (b : Nat → Outcome) :
    ∀ f a, (forwardGo cfg b a f).attempts.length ≤ f := by
  intro f
  induction f with
  | zero => intro a; simp [forwardGo]
  | succ f ih =>
    intro a
    have h := ih (a + 1)
    rcases hb : b a with ⟨code, body⟩ | _ | m | m <;>
      simp only [forwardGo, hb] <;>
      split_ifs <;>
      simp_all [retryStep, oneShot]

theorem forwardGo_attempts_shape (cfg : EngineCfg) (b : Nat → Outcome) :
    ∀ f a, (forwardGo cfg b a f).attempts =
      (List.range (forwardGo cfg b a f).attempts.length).map
        (fun i => attemptRecAt (a + i)) := by
  intro f
  induction f with
  | zero => intro a; simp [forwardGo]
  | succ f ih =>
    intro a
    have h := ih (a + 1)
    have hcons : ∀ r : NextRun,
        r.attempts =
          (List.range r.attempts.length).map (fun i => attemptRecAt (a + 1 + i)) →
        attemptRecAt a :: r.attempts =
          (List.range (attemptRecAt a :: r.attempts).length).map
            (fun i => attemptRecAt (a + i)) := by
      intro r hr
      simp only [List.length_cons, List.range_succ_eq_map, List.map_cons,
        List.map_map]
      congr 1
      conv_lhs => rw [hr]
      exact List.map_congr_left fun i _ => by
        simp only [Function.comp]
        congr 1
        omega
    rcases hb : b a with ⟨code, body⟩ | _ | m | m <;>
      simp only [forwardGo, hb] <;>
      split_ifs <;>
      first
      | (simp only [retryStep]; exact hcons _ h)
      | simp [oneShot, attemptRecAt, List.range_succ_eq_map]

/-! ## Claim theorems -/

theorem take_canonical (n : Nat) (h : n ≤ 3) :
    canonicalAttempts.take n = (List.range n).map attemptRecAt := by
  interval_cases n <;> rfl

/-- Claim C1: for every invocation of the forwarding engine (Gatekeeper to
Age Screener and Age Screener to Region Classifier), at most 3 attempts
are made, the per-attempt total timeout for attempts 1, 2, 3 is 60s, 90s,
120s respectively, and the connect timeout is 30s on every attempt — the
attempt list is always a prefix of `canonicalAttempts`. -/
theorem claim_C1_attempt_budget_and_timeout_schedule
    (b : Nat → Outcome) (env : NextEnv) :
    ((forward_to_age_api b).attempts.length ≤ 3 ∧
     (forward_to_age_api b).attempts =
       canonicalAttempts.take (forward_to_age_api b).attempts.length) ∧
    ((forward_to_next_api env).attempts.length ≤ 3 ∧
     (forward_to_next_api env).attempts =
       canonicalAttempts.take (forward_to_next_api env).attempts.length) := by
  simp only [forward_to_age_api, forward_to_next_api]
  have hla := forwardGo_attempts_len ageCfg b 3 0
  have hsa := forwardGo_attempts_shape ageCfg b 3 0
  have hln := forwardGo_attempts_len (nextCfg env) env.behavior 3 0
  have hsn := forwardGo_attempts_shape (nextCfg env) env.behavior 3 0
  simp only [Nat.zero_add] at hsa hsn
  refine ⟨⟨hla, ?_⟩, ⟨hln, ?_⟩⟩
  · rw [take_canonical _ hla]; exact hsa
  · rw [take_canonical _ hln]; exact hsn

/-- Claim C2: at both call sites a further attempt happens only after a
timeout, an HTTP 500, or a raised request/network error, and any other
non-200 status is immediately terminal — the run stops at that attempt
with a `forward_failed` result whose reason string embeds the status
code. -/
theorem claim_C2_retry_triggers_and_terminal_status
    (b : Nat → Outcome) (env : NextEnv) (j c : Nat) (p : Payload) :
    (j + 1 < (forward_to_age_api b).attempts.length →
      b j = .timeout ∨ (∃ q, b j = .resp 500 q) ∨
      (∃ m, b j = .reqError m) ∨ (∃ m, b j = .exc m)) ∧
    (b j = .resp c p → c ≠ 200 → c ≠ 500 →
      j < (forward_to_age_api b).attempts.length →
      (forward_to_age_api b).attempts.length = j + 1 ∧
      (forward_to_age_api b).result.status = "forward_failed" ∧
      (forward_to_age_api b).result.error =
        some ("Age API returned status " ++ toString c)) ∧
    (j + 1 < (forward_to_next_api env).attempts.length →
      env.behavior j = .timeout ∨ (∃ q, env.behavior j = .resp 500 q) ∨
      (∃ m, env.behavior j = .reqError m) ∨ (∃ m, env.behavior j = .exc m)) ∧
    (env.behavior j = .resp c p → c ≠ 200 → c ≠ 500 →
      j < (forward_to_next_api env).attempts.length →
      (forward_to_next_api env).attempts.length = j + 1 ∧
      (forward_to_next_api env).result.status = "forward_failed" ∧
      (forward_to_next_api env).result.error =
        some ("Autism API returned status " ++ toString c)) := by
  simp only [forward_to_age_api, forward_to_next_api]
  refine ⟨fun hj => ?_, fun hb h200 h500 hj => ?_, fun hj => ?_,
    fun hb h200 h500 hj => ?_⟩
  · have hr := forwardGo_retried ageCfg b 3 0 j (by simpa using hj)
    simp only [Nat.zero_add] at hr
    rcases hc : b j with ⟨code, body⟩ | _ | m | m
    · rw [hc] at hr
      simp only [retries, beq_iff_eq] at hr
      exact Or.inr (Or.inl ⟨body, by rw [hr]⟩)
    · exact Or.inl rfl
    · exact Or.inr (Or.inr (Or.inl ⟨m, rfl⟩))
    · exact Or.inr (Or.inr (Or.inr ⟨m, rfl⟩))
  · have ht := forwardGo_terminal_other ageCfg b 3 0 j c p
      (by simpa using hb) h200 h500 hj
    exact ⟨ht.1, by rw [ht.2], by rw [ht.2]; rfl⟩
  · have hr := forwardGo_retried (nextCfg env) env.behavior 3 0 j (by simpa using hj)
    simp only [Nat.zero_add] at hr
    rcases hc : env.behavior j with ⟨code, body⟩ | _ | m | m
    · rw [hc] at hr
      simp only [retries, beq_iff_eq] at hr
      exact Or.inr (Or.inl ⟨body, by rw [hr]⟩)
    · exact Or.inl rfl
    · exact Or.inr (Or.inr (Or.inl ⟨m, rfl⟩))
    · exact Or.inr (Or.inr (Or.inr ⟨m, rfl⟩))
  · have ht := forwardGo_terminal_other (nextCfg env) env.behavior 3 0 j c p
      (by simpa using hb) h200 h500 hj
    exact ⟨ht.1, by rw [ht.2], by rw [ht.2]; rfl⟩

/-- Claim C2 witness: with a Gatekeeper downstream that times out then
answers 403 the timeout retried while 403 ended the run at attempt 2 with
the status code in the reason; likewise 404 at the Age Screener site. -/
theorem claim_C2_witness :
    ((c2Behavior 0 = .timeout ∨ (∃ q, c2Behavior 0 = .resp 500 q) ∨
      (∃ m, c2Behavior 0 = .reqError m) ∨ (∃ m, c2Behavior 0 = .exc m)) ∧
     (forward_to_age_api c2Behavior).attempts.length = 2 ∧
     (forward_to_age_api c2Behavior).result.status = "forward_failed" ∧
     (forward_to_age_api c2Behavior).result.error =
       some ("Age API returned status " ++ toString 403)) ∧
    ((c2NextEnv.behavior 0 = .timeout ∨
      (∃ q, c2NextEnv.behavior 0 = .resp 500 q) ∨
      (∃ m, c2NextEnv.behavior 0 = .reqError m) ∨
      (∃ m, c2NextEnv.behavior 0 = .exc m)) ∧
     (forward_to_next_api c2NextEnv).attempts.length = 2 ∧
     (forward_to_next_api c2NextEnv).result.status = "forward_failed" ∧
     (forward_to_next_api c2NextEnv).result.error =
       some ("Autism API returned status " ++ toString 404)) := by
  have h0 := claim_C2_retry_triggers_and_terminal_status c2Behavior c2NextEnv 0 403 {}
  have h1 := claim_C2_retry_triggers_and_terminal_status c2Behavior c2NextEnv 1 403 {}
  have h1n := claim_C2_retry_triggers_and_terminal_status c2Behavior c2NextEnv 1 404 {}
  refine ⟨⟨h0.1 (by decide), ?_⟩, ⟨h0.2.2.1 (by decide), ?_⟩⟩
  · exact h1.2.1 (by decide) (by decide) (by decide) (by decide)
  · exact h1n.2.2.2 (by decide) (by decide) (by decide) (by decide)

/-- Claim C3: at both call sites the backoff slept after a retried
attempt `j` (0-based) is exactly 20s after a timeout, `15 * (j + 1)`s
after an HTTP 500 (15s after attempt 1, 30s after attempt 2), and 10s
after a request error or other network exception, so the engine never
waits less than those amounts. -/
theorem claim_C3_backoff_schedule
    (b : Nat → Outcome) (env : NextEnv) (j : Nat) :
    (j + 1 < (forward_to_age_api b).attempts.length →
      (b j = .timeout → (forward_to_age_api b).sleeps.get? j = some 20) ∧
      (∀ c p, b j = .resp c p →
        (forward_to_age_api b).sleeps.get? j = some (15 * (j + 1))) ∧
      (∀ m, b j = .reqError m →
        (forward_to_age_api b).sleeps.get? j = some 10) ∧
      (∀ m, b j = .exc m →
        (forward_to_age_api b).sleeps.get? j = some 10)) ∧
    (j + 1 < (forward_to_next_api env).attempts.length →
      (env.behavior j = .timeout →
        (forward_to_next_api env).sleeps.get? j = some 20) ∧
      (∀ c p, env.behavior j = .resp c p →
        (forward_to_next_api env).sleeps.get? j = some (15 * (j + 1))) ∧
      (∀ m, env.behavior j = .reqError m →
        (forward_to_next_api env).sleeps.get? j = some 10) ∧
      (∀ m, env.behavior j = .exc m →
        (forward_to_next_api env).sleeps.get? j = some 10)) := by
  simp only [forward_to_age_api, forward_to_next_api]
  constructor
  · intro hj
    have hs := forwardGo_sleeps_spec ageCfg b 3 0 j (by simpa using hj)
    simp only [Nat.zero_add] at hs
    refine ⟨fun h => ?_, fun c p h => ?_, fun m h => ?_, fun m h => ?_⟩ <;>
      rw [hs, h] <;> rfl
  · intro hj
    have hs := forwardGo_sleeps_spec (nextCfg env) env.behavior 3 0 j (by simpa using hj)
    simp only [Nat.zero_add] at hs
    refine ⟨fun h => ?_, fun c p h => ?_, fun m h => ?_, fun m h => ?_⟩ <;>
      rw [hs, h] <;> rfl

/-- Claim C3 witness: a Gatekeeper downstream answering 500 on every
attempt sleeps 15s then 30s; one raising a request error sleeps 10s; an
Age Screener downstream timing out then raising sleeps 20s then 10s. -/
theorem claim_C3_witness :
    (forward_to_age_api c3Behavior).sleeps.get? 0 = some (15 * (0 + 1)) ∧
    (forward_to_age_api c3Behavior).sleeps.get? 1 = some (15 * (1 + 1)) ∧
    (forward_to_age_api c3ReqErrBehavior).sleeps.get? 0 = some 10 ∧
    (forward_to_next_api c3NextEnv).sleeps.get? 0 = some 20 ∧
    (forward_to_next_api c3NextEnv).sleeps.get? 1 = some 10 := by
  have h0 := claim_C3_backoff_schedule c3Behavior c3NextEnv 0
  have h1 := claim_C3_backoff_schedule c3Behavior c3NextEnv 1
  have hr := claim_C3_backoff_schedule c3ReqErrBehavior c3NextEnv 0
  refine ⟨?_, ?_, ?_, ?_, ?_⟩
  · exact (h0.1 (by decide)).2.1 500 {} rfl
  · exact (h1.1 (by decide)).2.1 500 {} rfl
  · exact (hr.1 (by decide)).2.2.1 "peer reset" rfl
  · exact (h0.2 (by decide)).1 rfl
  · exact (h1.2 (by decide)).2.2.2 "boom" rfl

/-- Claim C4 counterexample: at the Gatekeeper call site the claim fails.
With a downstream Success payload whose `annotated_image_url` references
an artifact hosted on the Age service, the Gatekeeper issues no artifact
GET, persists no local copy, and embeds the payload in its 200 response
with the downstream-hosted reference unchanged (not rewritten to a
locally-servable path). -/
theorem claim_C4_counterexample :
    (forward_to_age_api c4Behavior).result.data = some c4Payload ∧
    (forward_to_age_api c4Behavior).gets = [] ∧
    (forward_to_age_api c4Behavior).saved = none ∧
    (filter_main c4GKEnv).response.statusCode = 200 ∧
    (filter_main c4GKEnv).response.ageAnalysisData = some c4Payload := by
  refine ⟨rfl, rfl, rfl, by decide, by decide⟩

/-- Claim C4 amended: only the Age Screener to Region Classifier site
relocates artifacts.  When the downstream Success payload carries
`annotated_image_path` and the artifact GET returns 200 with non-empty
bytes and the local save succeeds, the Age Screener fetches the artifact
from the downstream host, persists a local copy, and rewrites the key to
the locally-servable `/annotated/<fresh name>` path; the Gatekeeper
instead embeds the downstream payload verbatim, with no GET and no local
copy. -/
theorem claim_C4_amended_relocation_only_at_age_stage
    (env : NextEnv) (p q : Payload) (orig : String) (content : List Nat)
    (b : Nat → Outcome)
    (h0 : env.behavior 0 = .resp 200 p)
    (hpath : p.annotated_image_path = some orig)
    (hget : env.getOutcome (downloadUrl orig) = .resp 200 content)
    (hcl : 0 < content.length)
    (hw : env.saveEnv.writeSucceeds = true)
    (hsz : env.saveEnv.sizeOk = true)
    (hq : b 0 = .resp 200 q) :
    (forward_to_next_api env).result.status = "success" ∧
    (forward_to_next_api env).result.data =
      some { p with annotated_image_path :=
                      some ("/annotated/" ++ env.saveEnv.localFilename) } ∧
    (forward_to_next_api env).gets = [downloadUrl orig] ∧
    (forward_to_next_api env).saved =
      some ("/annotated/" ++ env.saveEnv.localFilename) ∧
    (forward_to_age_api b).result.status = "success" ∧
    (forward_to_age_api b).result.data = some q ∧
    (forward_to_age_api b).gets = [] ∧
    (forward_to_age_api b).saved = none := by
  have hn := forwardGo_success3 (nextCfg env) env.behavior p h0
  have ha := forwardGo_success3 ageCfg b q hq
  have hreloc : relocate env p =
      ({ p with annotated_image_path :=
                  some ("/annotated/" ++ env.saveEnv.localFilename) },
       [downloadUrl orig], some ("/annotated/" ++ env.saveEnv.localFilename)) := by
    simp [relocate, hpath, artifactFetchResult, hget,
      save_autism_image_locally, hcl, hw, hsz]
  simp only [forward_to_next_api, forward_to_age_api, hn, ha]
  simp [nextCfg, ageCfg, hreloc]

/-- Claim C4 amended witness at `c4NextEnv` (relocation succeeds and the
key is rewritten) and `c4AgeBehavior` (the Gatekeeper passes the payload
through untouched). -/
theorem claim_C4_amended_witness :
    (forward_to_next_api c4NextEnv).result.status = "success" ∧
    (forward_to_next_api c4NextEnv).result.data =
      some { annotated_image_path := some "/annotated/autism_annotated_c4.jpg" } ∧
    (forward_to_next_api c4NextEnv).gets =
      [downloadUrl "/annotated/remote_c4.jpg"] ∧
    (forward_to_next_api c4NextEnv).saved =
      some "/annotated/autism_annotated_c4.jpg" ∧
    (forward_to_age_api c4AgeBehavior).result.status = "success" ∧
    (forward_to_age_api c4AgeBehavior).result.data =
      some { rest := [("status", "ok")] } ∧
    (forward_to_age_api c4AgeBehavior).gets = [] ∧
    (forward_to_age_api c4AgeBehavior).saved = none :=
  claim_C4_amended_relocation_only_at_age_stage c4NextEnv
    { annotated_image_path := some "/annotated/remote_c4.jpg" }
    { rest := [("status", "ok")] } "/annotated/remote_c4.jpg"
    [137, 80, 78, 71] c4AgeBehavior rfl rfl rfl (by decide) rfl rfl rfl

/-- Claim C5: when the downstream answers 200 but the artifact fetch or
the local write fails during relocation, the forwarding outcome is still
`success`, the Age Screener's own response is still a 200 carrying the
downstream payload, and the payload keeps the original (possibly
unreachable) `annotated_image_path` reference. -/
theorem claim_C5_relocation_failure_nonfatal
    (aenv : AgeEnv) (p : Payload) (orig : String)
    (hct : startswith aenv.contentType "image/" = true)
    (hr : aenv.readable = true)
    (hkid : ∃ a ∈ aenv.anns, is_kid a.age = true)
    (h0 : aenv.nextEnv.behavior 0 = .resp 200 p)
    (hpath : p.annotated_image_path = some orig)
    (hfail : artifactFetchResult aenv.nextEnv orig = none) :
    (forward_to_next_api aenv.nextEnv).result.status = "success" ∧
    (forward_to_next_api aenv.nextEnv).result.data = some p ∧
    (forward_to_next_api aenv.nextEnv).saved = none ∧
    (process_image_gateway aenv).response.statusCode = 200 ∧
    (process_image_gateway aenv).response.autismData = some p ∧
    (process_image_gateway aenv).tempRemoved = true := by
  have hn := forwardGo_success3 (nextCfg aenv.nextEnv) aenv.nextEnv.behavior p h0
  have hreloc : relocate aenv.nextEnv p = (p, [downloadUrl orig], none) := by
    simp [relocate, hpath, hfail]
  have hrun : forward_to_next_api aenv.nextEnv =
      { attempts := [attemptRecAt 0], sleeps := [],
        result := { status := "success", data := some p, error := none },
        gets := [downloadUrl orig], saved := none } := by
    rw [forward_to_next_api, hn]
    simp [nextCfg, hreloc]
  have hne : aenv.anns.isEmpty = false := by
    obtain ⟨a, ha, _⟩ := hkid
    rcases hl : aenv.anns with _ | _
    · rw [hl] at ha; simp at ha
    · simp
  have hcount : 0 < aenv.anns.countP (fun x => is_kid x.age) := by
    obtain ⟨a, ha, hk⟩ := hkid
    exact List.countP_pos_iff.mpr ⟨a, ha, hk⟩
  refine ⟨by rw [hrun], by rw [hrun], by rw [hrun], ?_, ?_, ?_⟩ <;>
    simp [process_image_gateway, hct, process_image_for_age_check, hr, hne,
      hcount, hrun]

/-- Claim C5 witness: downstream answers 200 with a payload referencing
`/annotated/remote_c5.jpg`, the artifact GET returns 404, and the request
still succeeds end to end with the original reference retained. -/
theorem claim_C5_witness :
    (forward_to_next_api c5AgeEnv.nextEnv).result.status = "success" ∧
    (forward_to_next_api c5AgeEnv.nextEnv).result.data = some c5Payload ∧
    (forward_to_next_api c5AgeEnv.nextEnv).saved = none ∧
    (process_image_gateway c5AgeEnv).response.statusCode = 200 ∧
    (process_image_gateway c5AgeEnv).response.autismData = some c5Payload ∧
    (process_image_gateway c5AgeEnv).tempRemoved = true :=
  claim_C5_relocation_failure_nonfatal c5AgeEnv c5Payload
    "/annotated/remote_c5.jpg" (by decide) rfl (by decide) rfl rfl rfl

/-- Claim C6 failing evaluation: on the Region Classifier's success path
(readable image, exactly one detected face) the handler answers 200 but
the temp input file written for the request is still on disk afterwards —
the success-path `os.remove` is the mis-indented dead statement after
`raise` inside the `except` block, so no removal happens. -/
theorem claim_C6_temp_file_left_on_success_path :
    (predict c6Env).response.statusCode = 200 ∧
    (predict c6Env).tempWritten = true ∧
    (predict c6Env).tempRemoved = false := by
  refine ⟨by decide, rfl, by decide⟩

/-- Claim C7 counterexample: at the Region Classifier stage an upload
whose content type does not start with `image/` is still written to the
temp file (the handler never checks the content type) and a non-image
body yields a 500, not a 400. -/
theorem claim_C7_counterexample :
    startswith c7RCEnv.contentType "image/" = false ∧
    (predict c7RCEnv).tempWritten = true ∧
    (predict c7RCEnv).response.statusCode = 500 := by
  refine ⟨by decide, rfl, rfl⟩

/-- Claim C7 amended: the Gatekeeper and the Age Screener answer 400 on a
non-image content type and write no temp file; the Region Classifier
checks no content type, writes the temp file for every upload, and
answers 500 when the body is not a readable image. -/
theorem claim_C7_amended_content_type_gates
    (genv : GKEnv) (aenv : AgeEnv) (renv : RCEnv) :
    (startswith genv.contentType "image/" = false →
      (filter_main genv).response.statusCode = 400 ∧
      (filter_main genv).tempWritten = false) ∧
    (startswith aenv.contentType "image/" = false →
      (process_image_gateway aenv).response.statusCode = 400 ∧
      (process_image_gateway aenv).tempWritten = false) ∧
    (predict renv).tempWritten = true ∧
    (renv.readable = false → (predict renv).response.statusCode = 500) := by
  refine ⟨fun h => ?_, fun h => ?_, ?_, fun h => ?_⟩
  · simp [filter_main, h, httpDetail]
  · simp [process_image_gateway, h, httpDetailAge]
  · cases hri : run_inference renv <;> simp [predict, hri]
  · have hcr : run_inference renv = .error .cannotRead := by
      simp [run_inference, h]
    simp [predict, hcr]

/-- Claim C7 amended witness at a `text/plain` Gatekeeper upload, an
`application/json` Age Screener upload, and a non-image Region Classifier
upload. -/
theorem claim_C7_amended_witness :
    (filter_main c7GKEnv).response.statusCode = 400 ∧
    (filter_main c7GKEnv).tempWritten = false ∧
    (process_image_gateway c7AgeEnv).response.statusCode = 400 ∧
    (process_image_gateway c7AgeEnv).tempWritten = false ∧
    (predict c7RCEnv).tempWritten = true ∧
    (predict c7RCEnv).response.statusCode = 500 := by
  have h := claim_C7_amended_content_type_gates c7GKEnv c7AgeEnv c7RCEnv
  exact ⟨(h.1 (by decide)).1, (h.1 (by decide)).2, (h.2.1 (by decide)).1,
    (h.2.1 (by decide)).2, h.2.2.1, h.2.2.2 rfl⟩

/-- Claim C8: for every readable image at the Age Screener, zero
detections answer 200 without forwarding (tag `no_faces_detected`), any
detection in a kid bracket (`is_kid`) triggers the downstream forwarding
call, and detections in adult brackets only answer 200 tagged
`adult_invalid` without forwarding. -/
theorem claim_C8_age_gating (aenv : AgeEnv)
    (hct : startswith aenv.contentType "image/" = true)
    (hr : aenv.readable = true) :
    (aenv.anns = [] →
      (process_image_gateway aenv).response.statusCode = 200 ∧
      (process_image_gateway aenv).response.ageStatus = some "no_faces_detected" ∧
      (process_image_gateway aenv).forwardCalled = false) ∧
    ((∃ a ∈ aenv.anns, is_kid a.age = true) →
      (process_image_gateway aenv).forwardCalled = true) ∧
    (aenv.anns ≠ [] → (∀ a ∈ aenv.anns, is_kid a.age = false) →
      (process_image_gateway aenv).response.statusCode = 200 ∧
      (process_image_gateway aenv).response.ageStatus = some "adult_invalid" ∧
      (process_image_gateway aenv).forwardCalled = false) := by
  refine ⟨fun h => ?_, fun h => ?_, fun hne hall => ?_⟩
  · simp [process_image_gateway, hct, process_image_for_age_check, hr, h]
  · have hcount : 0 < aenv.anns.countP (fun x => is_kid x.age) := by
      obtain ⟨a, ha, hk⟩ := h
      exact List.countP_pos_iff.mpr ⟨a, ha, hk⟩
    have hemp : aenv.anns.isEmpty = false := by
      obtain ⟨a, ha, _⟩ := h
      rcases hl : aenv.anns with _ | _
      · rw [hl] at ha; simp at ha
      · simp
    by_cases hs : (forward_to_next_api aenv.nextEnv).result.status = "success" <;>
      simp [process_image_gateway, hct, process_image_for_age_check, hr, hemp,
        hcount, hs]
  · have hcount : aenv.anns.countP (fun x => is_kid x.age) = 0 :=
      List.countP_eq_zero.mpr (fun a ha => by simp [hall a ha])
    have hemp : aenv.anns.isEmpty = false := by
      rcases hl : aenv.anns with _ | _
      · exact absurd hl hne
      · simp
    simp [process_image_gateway, hct, process_image_for_age_check, hr, hemp,
      hcount]

/-- Claim C8 witness at three concrete requests: no face, one `(8-12)`
face, one `(38-43)` face. -/
theorem claim_C8_witness :
    ((process_image_gateway c8NoFaceEnv).response.statusCode = 200 ∧
     (process_image_gateway c8NoFaceEnv).response.ageStatus =
       some "no_faces_detected" ∧
     (process_image_gateway c8NoFaceEnv).forwardCalled = false) ∧
    (process_image_gateway c8KidEnv).forwardCalled = true ∧
    ((process_image_gateway c8AdultEnv).response.statusCode = 200 ∧
     (process_image_gateway c8AdultEnv).response.ageStatus =
       some "adult_invalid" ∧
     (process_image_gateway c8AdultEnv).forwardCalled = false) :=
  ⟨(claim_C8_age_gating c8NoFaceEnv (by decide) rfl).1 rfl,
   (claim_C8_age_gating c8KidEnv (by decide) rfl).2.1 (by decide),
   (claim_C8_age_gating c8AdultEnv (by decide) rfl).2.2 (by decide) (by decide)⟩

theorem run_inference_two_plus (renv : RCEnv) (hr : renv.readable = true)
    (h2 : 2 ≤ renv.numFaces) :
    run_inference renv = .error (.keyError "label") := by
  obtain ⟨m, hm⟩ : ∃ m, renv.numFaces = m + 2 := ⟨renv.numFaces - 2, by omega⟩
  simp [run_inference, hr, hm, List.range_succ_eq_map, faceLoop, faceStep,
    regions, labelsOf, confsOf]

theorem run_inference_one (renv : RCEnv) (hr : renv.readable = true)
    (h1 : renv.numFaces = 1) :
    ∃ rs, run_inference renv = .ok rs := by
  simp [run_inference, hr, h1, faceLoop, faceStep, regions, labelsOf, confsOf]

/-- Claim C10: in the Region Classifier, a readable image with two or more
detected faces raises `KeyError("label")` while building the fusion
inputs (the first face's `final_decision` entry has no `label` key), so
`/predict` answers 500; `/predict` answers 200 exactly when the image is
readable and exactly one face is detected. -/
theorem claim_C10_multi_face_keyerror (renv : RCEnv) :
    (renv.readable = true → 2 ≤ renv.numFaces →
      run_inference renv = .error (.keyError "label") ∧
      (predict renv).response.statusCode = 500) ∧
    ((predict renv).response.statusCode = 200 ↔
      (renv.readable = true ∧ renv.numFaces = 1)) := by
  constructor
  · intro hr h2
    have he := run_inference_two_plus renv hr h2
    exact ⟨he, by simp [predict, he]⟩
  · constructor
    · intro h200
      rcases hread : renv.readable with _ | _
      · have hcr : run_inference renv = .error .cannotRead := by
          simp [run_inference, hread]
        simp [predict, hcr] at h200
      · refine ⟨rfl, ?_⟩
        rcases hn : renv.numFaces with _ | k
        · have hnf : run_inference renv = .error .noFace := by
            simp [run_inference, hread, hn]
          simp [predict, hnf] at h200
        · rcases k with _ | k2
          · rfl
          · have he := run_inference_two_plus renv hread (by omega)
            simp [predict, he] at h200
    · rintro ⟨hr, h1⟩
      obtain ⟨rs, hok⟩ := run_inference_one renv hr h1
      simp [predict, hok]

/-- Claim C10 witness at a readable two-face request. -/
theorem claim_C10_witness :
    run_inference c10Env = .error (.keyError "label") ∧
    (predict c10Env).response.statusCode = 500 := by
  have h := claim_C10_multi_face_keyerror c10Env
  exact ⟨(h.1 rfl (by decide)).1, (h.1 rfl (by decide)).2⟩

/-- Claim C9 failing evaluation: a readable image with zero detected
faces makes `run_inference` raise `HTTPException(400)`, but `predict`'s
blanket `except` catches it and re-raises a 500, so the `/predict` caller
receives 500, not 400. -/
theorem claim_C9_zero_faces_yields_500 :
    run_inference c9Env = Except.error RCError.noFace ∧
    (predict c9Env).response.statusCode = 500 ∧
    (predict c9Env).response.statusCode ≠ 400 := by
  refine ⟨rfl, rfl, by decide⟩

end Pipeline
